import Mathlib

/-!
Shallow embedding of the WebSocket JSON-RPC subscription client
(`rpc/ws/client.go` of the repository) and proofs about it.

Conventions of the embedding:
* Go byte slices are `List Nat` (one `Nat` per byte).
* Go `uint64` values are `Nat`; `time.Duration` (`int64` nanoseconds) is
  `Int`, with 64-bit wraparound made explicit where the code can overflow.
* The two registry maps are association lists.  Go stores `*Subscription`
  pointers in both maps; since an entry is keyed by its request ID for its
  whole life, the embedding keys the subscription store by request ID and
  lets the subscription-ID index map a server subscription ID to the
  request ID of the entry (the aliasing of the two Go maps is thereby
  preserved: a field update seen through one map is seen through both).
* External JSON parsing (jsoniter unmarshal of the ack probe, jsonparser
  field accessors) and the base58 signature parser are oracles supplied as
  parameters: the claims quantify over what those parsers return.
* Channel deliveries (error channel, and whether a value was handed to a
  stream) are recorded as an explicit event trace next to the state.
-/

/-- Go byte slices. -/
abbrev Bytes := List Nat

/-- Bytes of an ASCII string literal. -/
def strBytes (s : String) : Bytes := s.toList.map Char.toNat

/-- A `solana.Signature` is a 64-byte array; kept as raw bytes. -/
abbrev Sig := List Nat

/-- The zero value `solana.Signature\x7b\x7d` returned by the retrieval
functions when the fast-path scan misses. -/
def zeroSig : Sig := List.replicate 64 0

/-- Association-list lookup (first binding wins), mirroring Go map read. -/
def lookupA {κ β : Type} [DecidableEq κ] (k : κ) : List (κ × β) → Option β
  | [] => none
  | (k2, v) :: t => if k2 = k then some v else lookupA k t

/-- Association-list delete, mirroring Go `delete(m, k)`. -/
def alistErase {β : Type} (k : Nat) : List (Nat × β) → List (Nat × β)
  | [] => []
  | (k2, v) :: t => if k2 = k then alistErase k t else (k2, v) :: alistErase k t

/-- Association-list write, mirroring Go `m[k] = v`. -/
def alistInsert {β : Type} (k : Nat) (v : β) (l : List (Nat × β)) :
    List (Nat × β) := (k, v) :: alistErase k l

/-- In-place update of the binding at `k`, mirroring a field write through
the pointer stored in a Go map. -/
def alistUpdate {β : Type} (k : Nat) (f : β → β) : List (Nat × β) → List (Nat × β)
  | [] => []
  | (k2, v) :: t => if k2 = k then (k2, f v) :: t else (k2, v) :: alistUpdate k f t

/-- Go `bytes.Cut(s, sep)` restricted to the part after the separator:
`some after` when `sep` occurs in `s` (first occurrence), `none` otherwise. -/
def cutAfter (sep : Bytes) : Bytes → Option Bytes
  | [] => if sep.isEmpty then some [] else none
  | x :: xs =>
    if sep.isPrefixOf (x :: xs) then some ((x :: xs).drop sep.length)
    else cutAfter sep xs

/-- Go `bytes.IndexAny(s, chars)`: index of the first byte of `s` that is in
`chars`, `none` when there is none (Go returns -1). -/
def indexAny (chars : Bytes) : Bytes → Option Nat
  | [] => none
  | c :: t => if c ∈ chars then some 0 else (indexAny chars t).map (· + 1)

/-- ASCII whitespace, as recognised by `bytes.TrimSpace` on ASCII input. -/
def isSpaceByte (c : Nat) : Bool :=
  c = 9 || c = 10 || c = 11 || c = 12 || c = 13 || c = 32

/-- Go `bytes.TrimSpace` (ASCII fragment). -/
def trimSpace (s : Bytes) : Bytes :=
  ((s.dropWhile isSpaceByte).reverse.dropWhile isSpaceByte).reverse

/-- Digit-accumulating core of `strconv.ParseUint(s, 10, 64)`. -/
def parseUintCore : Bytes → Nat → Option Nat
  | [], acc => some acc
  | c :: cs, acc =>
    if 48 ≤ c ∧ c ≤ 57 then
      if acc * 10 + (c - 48) < 2 ^ 64 then parseUintCore cs (acc * 10 + (c - 48))
      else none
    else none

/-- Go `strconv.ParseUint(string(s), 10, 64)`: decimal digits only, nonempty,
value below `2^64`; `none` models a returned error. -/
def parseUint64 (s : Bytes) : Option Nat :=
  if s.isEmpty then none else parseUintCore s 0

/-- The literal `"subscription":` searched by the sub-ID retrievals. -/
def subscriptionKey : Bytes := strBytes "\"subscription\":"

/-- The literal `"err":` searched by the logsNotification discarder. -/
def errKey : Bytes := strBytes "\"err\":"

/-- The literal `"signature":"` searched by the signature retrievals. -/
def sigKey : Bytes := strBytes "\"signature\":\""

/-- The literal `null`. -/
def nullBytes : Bytes := strBytes "null"

/-- The delimiter set `" ,]\x7d"` used by `bytes.IndexAny` in the filters:
space, comma, right bracket, right brace. -/
def delimBytes : Bytes := [32, 44, 93, 125]

/-- `defaultSubIDRetrievals["transactionNotification"]`: scan bytes
`[60:128]` for `"subscription":` and parse the following integer up to the
next delimiter. -/
def transactionSubID (b : Bytes) : Nat × Bool :=
  if b.length < 128 then (0, false)
  else
    match cutAfter subscriptionKey ((b.take 128).drop 60) with
    | none => (0, false)
    | some after =>
      match indexAny delimBytes after with
      | none => (0, false)
      | some idx =>
        match parseUint64 (trimSpace (after.take idx)) with
        | none => (0, false)
        | some n => (n, true)

/-- `defaultSubIDRetrievals["logsNotification"]`: scan the last 64 bytes
(or the whole payload when shorter) for `"subscription":` with the same
delimiter rule. -/
def logsSubID (b : Bytes) : Nat × Bool :=
  match cutAfter subscriptionKey (b.drop (b.length - min 64 b.length)) with
  | none => (0, false)
  | some after =>
    match indexAny delimBytes after with
    | none => (0, false)
    | some idx =>
      match parseUint64 (trimSpace (after.take idx)) with
      | none => (0, false)
      | some n => (n, true)

/-- `defaultTxDiscarders["logsNotification"]`: scan bytes `[192:256]` for
`"err":`; report `true` (drop the notification) when the delimiter-bounded
token that follows is not the literal `null`. -/
def logsDiscard (b : Bytes) : Bool :=
  if b.length < 256 then false
  else
    match cutAfter errKey ((b.take 256).drop 192) with
    | none => false
    | some after =>
      match indexAny delimBytes after with
      | none => false
      | some idx => !(trimSpace (after.take idx) = nullBytes)

/-- `defaultSigRetrievals["logsNotification"]`: scan bytes `[96:224]` for
`"signature":"`, read until the closing quote, base58-decode.  The base58
parser (`solana.SignatureFromBase58`, outside the core) is the oracle
`f58`. -/
def logsSigRetrieval (f58 : Bytes → Sig) (b : Bytes) : Sig :=
  if b.length < 224 then zeroSig
  else
    match cutAfter sigKey ((b.take 224).drop 96) with
    | none => zeroSig
    | some after =>
      match indexAny [34] after with
      | none => zeroSig
      | some idx => f58 (trimSpace (after.take idx))

/-- `defaultSigRetrievals["transactionNotification"]`: scan the last 128
bytes for `"signature":"`. -/
def transactionSigRetrieval (f58 : Bytes → Sig) (b : Bytes) : Sig :=
  if b.length < 128 then zeroSig
  else
    match cutAfter sigKey (b.drop (b.length - 128)) with
    | none => zeroSig
    | some after =>
      match indexAny [34] after with
      | none => zeroSig
      | some idx => f58 (trimSpace (after.take idx))

/-- The `defaultSubIDRetrievals` table. -/
def defaultSubIDRetrievals : List (String × (Bytes → Nat × Bool)) :=
  [("transactionNotification", transactionSubID), ("logsNotification", logsSubID)]

/-- The `defaultTxDiscarders` table. -/
def defaultTxDiscarders : List (String × (Bytes → Bool)) :=
  [("logsNotification", logsDiscard)]

/-- The `defaultSigRetrievals` table, parameterised by the base58 parser. -/
def defaultSigRetrievals (f58 : Bytes → Sig) : List (String × (Bytes → Sig)) :=
  [("logsNotification", logsSigRetrieval f58),
   ("transactionNotification", transactionSigRetrieval f58)]

/-- One `Subscription` entry: originating request ID, server-assigned
subscription ID (zero until the ack), unsubscribe method, decoder, bounded
result stream (contents plus capacity). -/
structure SubEntry (V : Type) where
  reqID : Nat
  subID : Nat
  unsubscribeMethod : String
  decoderFunc : Bytes → Except String V
  stream : List V
  streamCap : Nat

/-- The `Client` state touched by the dispatcher: the two registry indices,
the three per-method fast-path filter tables, and the signature-cache
state. -/
structure Client (V : Type) where
  subsByRequestID : List (Nat × SubEntry V)
  subsByWSSubID : List (Nat × Nat)
  subIDRetrievals : List (String × (Bytes → Nat × Bool))
  txDiscarders : List (String × (Bytes → Bool))
  sigRetrievals : List (String × (Bytes → Sig))
  sigCache : List Sig

/-- Observable channel activity of one handler call. -/
inductive Event where
  | errDelivered (reqID : Nat) (msg : String)
  | valueDelivered (reqID : Nat)
  | insertedPending (reqID : Nat)
  | wroteRequest (ok : Bool)
deriving DecidableEq

/-- Oracles for the external JSON library calls and the pluggable signature
cache (`LogsSignatureCache.Has` / `Set` acting on an explicit cache state). -/
structure JsonEnv where
  parseAck : Bytes → Nat × Nat
  getMethod : Bytes → Option String
  getParamsSubscription : Bytes → Option Nat
  cacheHas : List Sig → Sig → Bool
  cacheSet : List Sig → Sig → List Sig

/-- `closeSubscription(reqID, err)`: look the entry up by request ID; if
absent do nothing; otherwise deliver `err` on the entry's error channel and
delete the entry from both indices (the rpc unsubscribe write is a network
side effect with no state impact here). -/
def closeSubscription {V : Type} (c : Client V) (reqID : Nat) (err : String) :
    Client V × List Event :=
  match lookupA reqID c.subsByRequestID with
  | none => (c, [])
  | some sub =>
    ({ c with
        subsByRequestID := alistErase sub.reqID c.subsByRequestID,
        subsByWSSubID := alistErase sub.subID c.subsByWSSubID },
     [Event.errDelivered sub.reqID err])

/-- `handleNewSubscriptionMessage(requestID, subID)`: promote the entry
registered under `requestID`, or log and drop when it is unknown. -/
def handleNewSubscriptionMessage {V : Type} (c : Client V)
    (requestID subID : Nat) : Client V × List Event :=
  match lookupA requestID c.subsByRequestID with
  | none => (c, [])
  | some _ =>
    ({ c with
        subsByRequestID :=
          alistUpdate requestID (fun s => { s with subID := subID }) c.subsByRequestID,
        subsByWSSubID := alistInsert subID requestID c.subsByWSSubID },
     [])

/-- `handleSubscriptionMessage(subID, message)`: find the entry through the
subscription-ID index, decode, then either tear down (decode failure or a
stream already at capacity) or push the decoded value onto the stream. -/
def handleSubscriptionMessage {V : Type} (c : Client V) (subID : Nat)
    (msg : Bytes) : Client V × List Event :=
  match lookupA subID c.subsByWSSubID with
  | none => (c, [])
  | some rid =>
    match lookupA rid c.subsByRequestID with
    | none => (c, [])
    | some sub =>
      match sub.decoderFunc msg with
      | Except.error e =>
        closeSubscription c sub.reqID ("unable to decode client response: " ++ e)
      | Except.ok v =>
        if sub.streamCap ≤ sub.stream.length then
          closeSubscription c sub.reqID
            ("reached channel max capacity " ++ toString sub.stream.length)
        else
          ({ c with
              subsByRequestID :=
                alistUpdate rid (fun s => { s with stream := s.stream ++ [v] })
                  c.subsByRequestID },
           [Event.valueDelivered sub.reqID])

/-- Go `txDiscarder, ok := c.txDiscarders[method]; ok && txDiscarder(msg)`. -/
def discards (tbl : List (String × (Bytes → Bool))) (m : String) (msg : Bytes) :
    Bool :=
  match lookupA m tbl with
  | some d => d msg
  | none => false

/-- Sub-ID extraction and routing: try the fast-path retriever for the
method; on a miss fall back to the generic `params.subscription` accessor
(zero on failure), then route. -/
def routeNotification {V : Type} (env : JsonEnv) (c : Client V) (m : String)
    (msg : Bytes) : Client V × List Event :=
  match lookupA m c.subIDRetrievals with
  | some r =>
    if (r msg).2 then handleSubscriptionMessage c (r msg).1 msg
    else handleSubscriptionMessage c ((env.getParamsSubscription msg).getD 0) msg
  | none => handleSubscriptionMessage c ((env.getParamsSubscription msg).getD 0) msg

/-- Signature de-dup stage: when a signature retriever is registered for the
method, extract the signature; drop when the cache already has it, otherwise
record it and continue. -/
def sigStep {V : Type} (env : JsonEnv) (c : Client V) (m : String)
    (msg : Bytes) : Client V × List Event :=
  match lookupA m c.sigRetrievals with
  | some f =>
    if env.cacheHas c.sigCache (f msg) then (c, [])
    else
      routeNotification env
        { c with sigCache := env.cacheSet c.sigCache (f msg) } m msg
  | none => routeNotification env c m msg

/-- The notification path of `handleMessage` after the ack probe: method
lookup (drop when absent), discarder check, signature de-dup, routing. -/
def afterAck {V : Type} (env : JsonEnv) (c : Client V) (msg : Bytes) :
    Client V × List Event :=
  match env.getMethod msg with
  | none => (c, [])
  | some m =>
    if discards c.txDiscarders m msg then (c, [])
    else sigStep env c m msg

/-- `handleMessage`: frames shorter than 128 bytes whose ack probe yields
non-zero `id` and `result` are subscribe acks; everything else goes down the
notification path. -/
def handleMessage {V : Type} (env : JsonEnv) (c : Client V) (msg : Bytes) :
    Client V × List Event :=
  if msg.length < 128 ∧ (env.parseAck msg).1 ≠ 0 ∧ (env.parseAck msg).2 ≠ 0 then
    handleNewSubscriptionMessage c (env.parseAck msg).1 (env.parseAck msg).2
  else afterAck env c msg

/-- The read loop's repeated dispatch: state after handling a list of
frames. -/
def runAll {V : Type} (env : JsonEnv) (c : Client V) (ms : List Bytes) :
    Client V :=
  ms.foldl (fun s m => (handleMessage env s m).1) c

/-- `subscribe`: encode the request (`encodeOk` is the outcome of
`req.encode()`), insert the pending entry under the request ID, then write
the frame (`writeOk` is the socket write outcome).  Returns the new state,
the error returned to the caller, and the event trace. -/
def subscribe {V : Type} (c : Client V) (reqID : Nat) (unsubMethod : String)
    (decoder : Bytes → Except String V) (streamCap : Nat)
    (encodeOk writeOk : Bool) : Client V × Option String × List Event :=
  if encodeOk then
    let sub : SubEntry V :=
      { reqID := reqID, subID := 0, unsubscribeMethod := unsubMethod,
        decoderFunc := decoder, stream := [], streamCap := streamCap }
    let c2 := { c with subsByRequestID := alistInsert reqID sub c.subsByRequestID }
    if writeOk then (c2, none, [Event.insertedPending reqID, Event.wroteRequest true])
    else (c2, some "unable to write request",
          [Event.insertedPending reqID, Event.wroteRequest false])
  else (c, some "subscribe: unable to encode subsciption request", [])

/-- Construction options (`Options`), durations in nanoseconds as Go
`time.Duration` values. -/
structure Options where
  handshakeTimeout : Int := 0
  pongWait : Int := 0
  pingPeriod : Int := 0
  useSubIDRetrievals : Bool := false
  discardFailedTxs : Bool := false

/-- Signed 64-bit wraparound, making the Go `int64` multiplication in
`(c.pongWait * 9) / 10` explicit. -/
def i64wrap (x : Int) : Int :=
  (x + 9223372036854775808) % 18446744073709551616 - 9223372036854775808

/-- The package constant `pongWait = 60 * time.Second`. -/
def defaultPongWait : Int := 60000000000

/-- The package constant `pingPeriod = (pongWait * 9) / 10`. -/
def defaultPingPeriod : Int := Int.tdiv (defaultPongWait * 9) 10

/-- The pong-wait / ping-period configuration performed by
`ConnectWithOptions` (client.go lines 119-130): a positive `PongWait`
option is adopted; a positive `PingPeriod` is then adopted verbatim,
otherwise derived as nine tenths of the pong wait (in Go `int64`
arithmetic); with no options, package defaults apply. -/
def connectWaitConfig (opt : Option Options) : Int × Int :=
  match opt with
  | some o =>
    if 0 < o.pongWait then
      (o.pongWait,
       if 0 < o.pingPeriod then o.pingPeriod
       else Int.tdiv (i64wrap (o.pongWait * 9)) 10)
    else (defaultPongWait, defaultPingPeriod)
  | none => (defaultPongWait, defaultPingPeriod)

/-- Filter-table installation performed by `ConnectWithOptions`: sub-ID
retrievals and discarders behind their option flags, signature retrievals
exactly when an external signature cache is supplied. -/
def connectTables (V : Type) (opt : Option Options) (cacheInstalled : Bool)
    (f58 : Bytes → Sig) : Client V :=
  { subsByRequestID := [], subsByWSSubID := [],
    subIDRetrievals :=
      match opt with
      | some o => if o.useSubIDRetrievals then defaultSubIDRetrievals else []
      | none => [],
    txDiscarders :=
      match opt with
      | some o => if o.discardFailedTxs then defaultTxDiscarders else []
      | none => [],
    sigRetrievals := if cacheInstalled then defaultSigRetrievals f58 else [],
    sigCache := [] }

/-- The decoded `json2.Error` envelope, `\x7bcode, message, data\x7d`. -/
structure RpcErrObj where
  code : Int
  message : String
  data : Option String
deriving DecidableEq

/-- The raw `error` member of a response body together with the outcome of
decoding it as a `json2.Error` (`none` when that decode fails). -/
structure ErrField where
  raw : String
  decoded : Option RpcErrObj

/-- Modelled from the spec: the response envelope struct (`response` /
`params` in client.go, not under src/).  Per the wire format of the spec, a
body optionally carries a top-level `error` member and an optional `params`
object whose `result` member is itself optional (both are pointer-typed raw
JSON in the envelope struct). -/
structure WsParams where
  result : Option String

/-- Modelled from the spec: optional `error` and `params` members of a
response body (see `WsParams`). -/
structure WsResponse where
  errorField : Option ErrField
  params : Option WsParams

/-- The `json2.E_SERVER` code. -/
def E_SERVER : Int := -32000

/-- Possible outcomes of `decodeResponseFromMessage`. -/
inductive DecodeOutcome (V : Type) where
  | topDecodeErr
  | rpcError (e : RpcErrObj)
  | nullResult
  | nilResultPanic
  | ok (v : V)
  | replyDecodeErr
deriving DecidableEq

/-- `decodeResponseFromMessage`: the input is the outcome of the top-level
unmarshal (`none` when it failed); `um` is the caller-supplied reply
unmarshal.  An `error` member that decodes is returned as is; one that does
not decode is synthesised with the server-error code and the raw bytes of
the `error` member as the message; a body with no `params` member is the
null-result sentinel; a `params` member without `result` hits the nil
dereference of `*c.Params.Result`. -/
def decodeResponseFromMessage {V : Type} (um : String → Option V)
    (body : Option WsResponse) : DecodeOutcome V :=
  match body with
  | none => DecodeOutcome.topDecodeErr
  | some resp =>
    match resp.errorField with
    | some ef =>
      match ef.decoded with
      | some e => DecodeOutcome.rpcError e
      | none =>
        DecodeOutcome.rpcError
          { code := E_SERVER, message := ef.raw, data := none }
    | none =>
      match resp.params with
      | none => DecodeOutcome.nullResult
      | some p =>
        match p.result with
        | none => DecodeOutcome.nilResultPanic
        | some raw =>
          match um raw with
          | some v => DecodeOutcome.ok v
          | none => DecodeOutcome.replyDecodeErr

/-- Specification-side reading of the transactionNotification sub-ID filter
(C6): when the literal `"subscription":` occurs in bytes `[60:128]`, the
result is the integer given by the token that follows it up to the next
delimiter among space, comma, bracket, brace (whitespace-trimmed);
otherwise, and for payloads shorter than 128 bytes, not-found. -/
def specTransactionSubID (b : Bytes) : Option Nat :=
  if b.length < 128 then none
  else
    match cutAfter subscriptionKey ((b.take 128).drop 60) with
    | none => none
    | some rest =>
      if rest.any (fun c => decide (c ∈ delimBytes)) then
        parseUint64 (trimSpace (rest.takeWhile (fun c => decide (c ∉ delimBytes))))
      else none

/-- Specification-side reading of the logsNotification discarder (C4): the
delimiter-bounded token following the first `"err":` in bytes `[192:256]`,
whitespace-trimmed, when the literal and a closing delimiter exist. -/
def specErrValue (b : Bytes) : Option Bytes :=
  if b.length < 256 then none
  else
    match cutAfter errKey ((b.take 256).drop 192) with
    | none => none
    | some rest =>
      if rest.any (fun c => decide (c ∈ delimBytes)) then
        some (trimSpace (rest.takeWhile (fun c => decide (c ∉ delimBytes))))
      else none

/-- A list cache that faithfully records membership, the intended
instantiation of the `LogsSignatureCache` capability for the de-dup
claims. -/
def listCacheHas (s : List Sig) (x : Sig) : Bool := decide (x ∈ s)

/-- Faithful cache insertion. -/
def listCacheSet (s : List Sig) (x : Sig) : List Sig := x :: s

/-- Sample decoder used by concrete witnesses. -/
def sampleDecoder : Bytes → Except String Nat := fun _ => Except.ok 7

/-- A pending entry under request ID 1, for concrete witnesses. -/
def sampleSub : SubEntry Nat :=
  { reqID := 1, subID := 0, unsubscribeMethod := "logsUnsubscribe",
    decoderFunc := sampleDecoder, stream := [], streamCap := 2 }

/-- A client holding only the pending entry `sampleSub`. -/
def sampleClient1 : Client Nat :=
  { subsByRequestID := [(1, sampleSub)], subsByWSSubID := [],
    subIDRetrievals := [], txDiscarders := [], sigRetrievals := [],
    sigCache := [] }

/-- An acknowledged entry whose stream is at capacity (2 of 2). -/
def sampleSubFull : SubEntry Nat :=
  { reqID := 1, subID := 7, unsubscribeMethod := "logsUnsubscribe",
    decoderFunc := sampleDecoder, stream := [5, 5], streamCap := 2 }

/-- A client holding the at-capacity entry `sampleSubFull` in both
indices. -/
def sampleClient2 : Client Nat :=
  { subsByRequestID := [(1, sampleSubFull)], subsByWSSubID := [(7, 1)],
    subIDRetrievals := [], txDiscarders := [], sigRetrievals := [],
    sigCache := [] }

/-- Oracle instance where the ack probe reads id 1, result 42. -/
def natEnv : JsonEnv :=
  { parseAck := fun _ => (1, 42), getMethod := fun _ => none,
    getParamsSubscription := fun _ => none,
    cacheHas := listCacheHas, cacheSet := listCacheSet }

/-- Oracle instance where every frame is a logsNotification and the cache
is the faithful list cache. -/
def dedupEnv : JsonEnv :=
  { parseAck := fun _ => (0, 0), getMethod := fun _ => some "logsNotification",
    getParamsSubscription := fun _ => none,
    cacheHas := listCacheHas, cacheSet := listCacheSet }

/-- A signature retriever that always yields the same signature. -/
def constSigRetrieval : Bytes → Sig := fun _ => [1, 2]

/-- A client with a signature retriever installed for logsNotification. -/
def sigClient5 : Client Nat :=
  { subsByRequestID := [], subsByWSSubID := [],
    subIDRetrievals := [], txDiscarders := [],
    sigRetrievals := [("logsNotification", constSigRetrieval)],
    sigCache := [] }

/-- A client with the default signature retrievals installed (base58
parser irrelevant for miss inputs). -/
def sigClient9 : Client Nat :=
  { subsByRequestID := [], subsByWSSubID := [],
    subIDRetrievals := [], txDiscarders := [],
    sigRetrievals := defaultSigRetrievals (fun _ => zeroSig),
    sigCache := [] }

/-- A 138-byte payload carrying `"subscription":42,` inside bytes
`[60:128]`. -/
def samplePayloadSub : Bytes :=
  List.replicate 60 48 ++ strBytes "\"subscription\":42," ++ List.replicate 60 48

/-- A 265-byte payload carrying `"err":"oops",` inside bytes `[192:256]`. -/
def samplePayloadErr : Bytes :=
  List.replicate 192 48 ++ strBytes "\"err\":\"oops\"," ++ List.replicate 60 48

theorem indexAny_eq_none_iff (d l : Bytes) :
    indexAny d l = none ↔ l.any (fun c => decide (c ∈ d)) = false := by
  induction l with
  | nil => simp [indexAny]
  | cons c t ih =>
    by_cases h : c ∈ d
    · simp [indexAny, h]
    · simp [indexAny, h, ih]

theorem indexAny_take (d l : Bytes) (i : Nat) (h : indexAny d l = some i) :
    l.take i = l.takeWhile (fun c => decide (c ∉ d)) ∧
    l.any (fun c => decide (c ∈ d)) = true := by
  induction l generalizing i with
  | nil => simp [indexAny] at h
  | cons c t ih =>
    by_cases hc : c ∈ d
    · simp only [indexAny, if_pos hc, Option.some.injEq] at h
      subst h
      simp [List.takeWhile, hc]
    · simp only [indexAny, if_neg hc, Option.map_eq_some'] at h
      obtain ⟨j, hj, rfl⟩ := h
      obtain ⟨h1, h2⟩ := ih j hj
      simp [List.take_succ_cons, List.takeWhile, hc, h1, h2]

theorem wrap_le_bounds (x : Int) :
    -9223372036854775808 ≤ i64wrap x ∧ i64wrap x < 9223372036854775808 := by
  unfold i64wrap
  constructor
  · have h := Int.emod_nonneg (x + 9223372036854775808)
      (show (18446744073709551616 : Int) ≠ 0 by norm_num)
    linarith
  · have h := Int.emod_lt_of_pos (x + 9223372036854775808)
      (show (0 : Int) < 18446744073709551616 by norm_num)
    linarith

theorem wrap_dvd (x : Int) : (18446744073709551616 : Int) ∣ (x - i64wrap x) := by
  unfold i64wrap
  have h := Int.emod_def (x + 9223372036854775808) 18446744073709551616
  exact ⟨(x + 9223372036854775808) / 18446744073709551616, by linarith⟩

theorem wrap_id (x : Int) (h0 : -9223372036854775808 ≤ x)
    (h1 : x < 9223372036854775808) : i64wrap x = x := by
  unfold i64wrap
  rw [Int.emod_eq_of_lt (by linarith) (by linarith)]
  ring

theorem wrap_tdiv_lt (w : Int) (h0 : 0 < w) (hw : w < 9223372036854775808) :
    Int.tdiv (i64wrap (w * 9)) 10 < w := by
  obtain ⟨hl, hu⟩ := wrap_le_bounds (w * 9)
  rcases le_or_lt (i64wrap (w * 9)) 0 with hneg | hpos
  · have h1 : (0 : Int) ≤ -i64wrap (w * 9) := by linarith
    have h2 := Int.tdiv_nonneg h1 (by norm_num : (0 : Int) ≤ 10)
    rw [Int.neg_tdiv] at h2
    linarith
  · have hlt : i64wrap (w * 9) < 10 * w := by
      by_contra hge
      push_neg at hge
      have hd := wrap_dvd (w * 9)
      obtain ⟨q, hq⟩ := hd
      -- w * 9 - i64wrap (w * 9) ≤ -w < 0, so the multiple is ≤ -2^64,
      -- forcing i64wrap (w * 9) ≥ 2^64 + 9 * w, beyond its upper bound.
      have hneg2 : w * 9 - i64wrap (w * 9) ≤ -w := by linarith
      have hqneg : q < 0 := by nlinarith
      have hqle : q ≤ -1 := by omega
      have : w * 9 - i64wrap (w * 9) ≤ -18446744073709551616 := by nlinarith
      linarith
    rw [Int.tdiv_eq_ediv (le_of_lt hpos) (by norm_num)]
    rw [Int.ediv_lt_iff_lt_mul (by norm_num : (0 : Int) < 10)]
    linarith

/-- C3 counterexample: with options PongWait = 1 ns and PingPeriod = 5 ns
(both positive), construction adopts the PingPeriod verbatim, so the
resulting state has ping_period = 5 ≥ 1 = pong_wait, refuting the claim
that `ping_period < pong_wait` holds for every combination of options. -/
theorem c3_ping_invariant_counterexample :
    ¬ ((connectWaitConfig (some { pongWait := 1, pingPeriod := 5 })).2 <
       (connectWaitConfig (some { pongWait := 1, pingPeriod := 5 })).1) := by
  decide

/-- C3 (amended): the invariant `ping_period < pong_wait` holds after
construction provided any positive PingPeriod option supplied together with
a positive PongWait is itself below that PongWait; with no options the
defaults are 60 s and 54 s, and a positive PongWait without a PingPeriod
derives the ping period as nine tenths of the pong wait (Go int64
arithmetic; equal to `(w * 9) / 10` whenever that product is in range). -/
theorem c3_ping_invariant_amended (opt : Option Options)
    (hrange : ∀ o, opt = some o → o.pongWait < 9223372036854775808)
    (hping : ∀ o, opt = some o → 0 < o.pingPeriod → 0 < o.pongWait →
      o.pingPeriod < o.pongWait) :
    (connectWaitConfig opt).2 < (connectWaitConfig opt).1 ∧
    connectWaitConfig none = (60000000000, 54000000000) ∧
    (∀ o, opt = some o → 0 < o.pongWait → o.pingPeriod ≤ 0 →
      (connectWaitConfig opt).2 = Int.tdiv (i64wrap (o.pongWait * 9)) 10) ∧
    (∀ o, opt = some o → 0 < o.pongWait → o.pingPeriod ≤ 0 →
      o.pongWait * 9 < 9223372036854775808 →
      (connectWaitConfig opt).2 = Int.tdiv (o.pongWait * 9) 10) := by
  refine ⟨?_, by decide, ?_, ?_⟩
  · cases opt with
    | none => decide
    | some o =>
      by_cases hpw : 0 < o.pongWait
      · by_cases hpp : 0 < o.pingPeriod
        · simp only [connectWaitConfig, if_pos hpw, if_pos hpp]
          exact hping o rfl hpp hpw
        · simp only [connectWaitConfig, if_pos hpw, if_neg hpp]
          exact wrap_tdiv_lt o.pongWait hpw (hrange o rfl)
      · simp only [connectWaitConfig, if_neg hpw]
        decide
  · intro o ho hpw hpp
    subst ho
    simp only [connectWaitConfig, if_pos hpw, if_neg (by omega : ¬ 0 < o.pingPeriod)]
  · intro o ho hpw hpp hsmall
    subst ho
    simp only [connectWaitConfig, if_pos hpw, if_neg (by omega : ¬ 0 < o.pingPeriod)]
    rw [wrap_id (o.pongWait * 9) (by nlinarith) hsmall]

/-- C3 witness: PongWait = 100 ns without a PingPeriod yields ping period
90 ns, below the pong wait. -/
theorem c3_ping_invariant_witness :
    (connectWaitConfig (some { pongWait := 100 })).2 <
      (connectWaitConfig (some { pongWait := 100 })).1 ∧
    connectWaitConfig (some { pongWait := 100 }) = (100, 90) :=
  ⟨(c3_ping_invariant_amended (some { pongWait := 100 })
      (fun o ho => by cases ho; decide)
      (fun o ho hp _ => by cases ho; exact absurd hp (by decide))).1,
   by decide⟩

/-- C10: whenever the PongWait option is zero, construction falls back to
the package defaults pong_wait = 60 s and ping_period = 54 s, whatever the
PingPeriod field holds. -/
theorem c10_ping_period_needs_pong_wait (o : Options) (h : o.pongWait = 0) :
    connectWaitConfig (some o) = (60000000000, 54000000000) := by
  simp only [connectWaitConfig, h]
  norm_num
  decide

/-- C10 witness: PongWait 0 with a huge PingPeriod still yields the
defaults. -/
theorem c10_ping_period_needs_pong_wait_witness :
    connectWaitConfig (some { pongWait := 0, pingPeriod := 999999999999 }) =
      (60000000000, 54000000000) :=
  c10_ping_period_needs_pong_wait { pongWait := 0, pingPeriod := 999999999999 } rfl

/-- C7: on every subscribe call whose request encodes, the pending entry is
inserted into the request-ID index before the frame write (the event trace
lists the insertion first); when the write fails the caller gets the write
error while the entry is still present under its request ID, with no
teardown and no delivery on the error channel. -/
theorem c7_pending_entry_survives_write_failure {V : Type} (c : Client V)
    (reqID : Nat) (m : String) (dec : Bytes → Except String V)
    (streamCap : Nat) (wOk : Bool) :
    (subscribe c reqID m dec streamCap true wOk).2.2 =
      [Event.insertedPending reqID, Event.wroteRequest wOk] ∧
    lookupA reqID (subscribe c reqID m dec streamCap true wOk).1.subsByRequestID =
      some { reqID := reqID, subID := 0, unsubscribeMethod := m,
             decoderFunc := dec, stream := [], streamCap := streamCap } ∧
    (wOk = false → (subscribe c reqID m dec streamCap true wOk).2.1 =
      some "unable to write request") ∧
    (∀ rid emsg,
      Event.errDelivered rid emsg ∉ (subscribe c reqID m dec streamCap true wOk).2.2) := by
  cases wOk <;> simp [subscribe, alistInsert, lookupA]

/-- C7 witness: a failing write on request ID 1 leaves the pending entry in
the index and returns the write error, insertion event first. -/
theorem c7_pending_entry_survives_write_failure_witness :
    (subscribe sampleClient1 2 "logsUnsubscribe" sampleDecoder 2 true false).2.2 =
      [Event.insertedPending 2, Event.wroteRequest false] ∧
    lookupA 2 (subscribe sampleClient1 2 "logsUnsubscribe" sampleDecoder 2
        true false).1.subsByRequestID =
      some { reqID := 2, subID := 0, unsubscribeMethod := "logsUnsubscribe",
             decoderFunc := sampleDecoder, stream := [], streamCap := 2 } ∧
    (subscribe sampleClient1 2 "logsUnsubscribe" sampleDecoder 2 true false).2.1 =
      some "unable to write request" :=
  ⟨(c7_pending_entry_survives_write_failure sampleClient1 2 "logsUnsubscribe"
      sampleDecoder 2 false).1,
   (c7_pending_entry_survives_write_failure sampleClient1 2 "logsUnsubscribe"
      sampleDecoder 2 false).2.1,
   (c7_pending_entry_survives_write_failure sampleClient1 2 "logsUnsubscribe"
      sampleDecoder 2 false).2.2.1 rfl⟩

/-- C8 counterexample: a response body with no error member and a params
object that lacks a result member is not reported as the null-result
sentinel (the code only checks for a missing params object and otherwise
dereferences the nil result). -/
theorem c8_error_envelope_counterexample :
    decodeResponseFromMessage (fun _ => (none : Option Nat))
      (some { errorField := none, params := some { result := none } }) ≠
    DecodeOutcome.nullResult := by
  decide

/-- C8 (amended): an error member that decodes as \x7bcode, message, data\x7d
is returned as is; an error member that fails to decode is synthesised with
the server-error code and the raw bytes of the error member as the message;
a body lacking both an error member and a params object is the null-result
sentinel, while a params object without a result member instead reaches the
nil dereference of the result pointer. -/
theorem c8_error_envelope_amended {V : Type} (um : String → Option V)
    (resp : WsResponse) :
    (∀ ef e, resp.errorField = some ef → ef.decoded = some e →
      decodeResponseFromMessage um (some resp) = DecodeOutcome.rpcError e) ∧
    (∀ ef, resp.errorField = some ef → ef.decoded = none →
      decodeResponseFromMessage um (some resp) =
        DecodeOutcome.rpcError { code := E_SERVER, message := ef.raw, data := none }) ∧
    (resp.errorField = none → resp.params = none →
      decodeResponseFromMessage um (some resp) = DecodeOutcome.nullResult) ∧
    (∀ p, resp.errorField = none → resp.params = some p → p.result = none →
      decodeResponseFromMessage um (some resp) = DecodeOutcome.nilResultPanic) := by
  refine ⟨?_, ?_, ?_, ?_⟩
  · intro ef e h1 h2
    simp [decodeResponseFromMessage, h1, h2]
  · intro ef h1 h2
    simp [decodeResponseFromMessage, h1, h2]
  · intro h1 h2
    simp [decodeResponseFromMessage, h1, h2]
  · intro p h1 h2 h3
    simp [decodeResponseFromMessage, h1, h2, h3]

/-- C8 witness: a body with neither error nor params decodes to the
null-result sentinel, and an undecodable error member is synthesised with
the server-error code and its raw bytes. -/
theorem c8_error_envelope_witness :
    decodeResponseFromMessage (fun _ => (none : Option Nat))
      (some { errorField := none, params := none }) = DecodeOutcome.nullResult ∧
    decodeResponseFromMessage (fun _ => (none : Option Nat))
      (some { errorField := some { raw := "\"boom\"", decoded := none },
              params := none }) =
      DecodeOutcome.rpcError { code := E_SERVER, message := "\"boom\"", data := none } :=
  ⟨(c8_error_envelope_amended (fun _ => (none : Option Nat))
      { errorField := none, params := none }).2.2.1 rfl rfl,
   (c8_error_envelope_amended (fun _ => (none : Option Nat))
      { errorField := some { raw := "\"boom\"", decoded := none }, params := none }).2.1
      { raw := "\"boom\"", decoded := none } rfl rfl⟩

/-- C1: a frame shorter than 128 bytes whose ack probe parses non-zero id
and result is treated as a subscribe ack: when an entry is registered under
that request ID it is promoted in place (its subscription ID set to the
result and the subscription-ID index extended with it) and the frame's
processing stops with no other state change and no deliveries; when no
entry is registered, the state is returned untouched. -/
theorem c1_ack_promotes_pending_entry {V : Type} (env : JsonEnv) (c : Client V)
    (msg : Bytes) (i r : Nat) (hlen : msg.length < 128)
    (hack : env.parseAck msg = (i, r)) (hi : i ≠ 0) (hr : r ≠ 0) :
    (∀ sub, lookupA i c.subsByRequestID = some sub →
      handleMessage env c msg =
        ({ c with
            subsByRequestID :=
              alistUpdate i (fun s => { s with subID := r }) c.subsByRequestID,
            subsByWSSubID := alistInsert r i c.subsByWSSubID }, [])) ∧
    (lookupA i c.subsByRequestID = none → handleMessage env c msg = (c, [])) := by
  have hcond : msg.length < 128 ∧ (env.parseAck msg).1 ≠ 0 ∧
      (env.parseAck msg).2 ≠ 0 := by
    rw [hack]
    exact ⟨hlen, hi, hr⟩
  constructor
  · intro sub hsub
    simp only [handleMessage, if_pos hcond, hack]
    simp only [handleNewSubscriptionMessage, hsub]
    rw [if_pos ⟨hlen, hi, hr⟩]
  · intro hnone
    simp only [handleMessage, if_pos hcond, hack]
    simp only [handleNewSubscriptionMessage, hnone]
    rw [if_pos ⟨hlen, hi, hr⟩]

/-- C1 witness: a short ack frame with id 1 and result 42 promotes the
pending entry of `sampleClient1` and inserts it under subscription ID 42. -/
theorem c1_ack_promotes_pending_entry_witness :
    handleMessage natEnv sampleClient1 [] =
      ({ sampleClient1 with
          subsByRequestID :=
            alistUpdate 1 (fun s => { s with subID := 42 })
              sampleClient1.subsByRequestID,
          subsByWSSubID := alistInsert 42 1 sampleClient1.subsByWSSubID }, []) :=
  (c1_ack_promotes_pending_entry natEnv sampleClient1 [] 1 42 (by decide) rfl
    (by decide) (by decide)).1 sampleSub rfl

/-- C2: a notification routed to an entry whose stream is at capacity is
never pushed; instead exactly one error reading "reached channel max
capacity" is delivered on that entry's error channel and the entry is
deleted from both the request-ID index and the subscription-ID index; a
notification routed to an entry below capacity appends the decoded value
to that entry's stream. -/
theorem c2_backpressure_teardown {V : Type} (c : Client V) (subID rid : Nat)
    (sub : SubEntry V) (msg : Bytes) (v : V)
    (h1 : lookupA subID c.subsByWSSubID = some rid)
    (h2 : lookupA rid c.subsByRequestID = some sub)
    (hrid : sub.reqID = rid) (hsid : sub.subID = subID)
    (hdec : sub.decoderFunc msg = Except.ok v) :
    (sub.streamCap ≤ sub.stream.length →
      handleSubscriptionMessage c subID msg =
        ({ c with
            subsByRequestID := alistErase rid c.subsByRequestID,
            subsByWSSubID := alistErase subID c.subsByWSSubID },
         [Event.errDelivered rid
            ("reached channel max capacity " ++ toString sub.stream.length)])) ∧
    (sub.stream.length < sub.streamCap →
      handleSubscriptionMessage c subID msg =
        ({ c with
            subsByRequestID :=
              alistUpdate rid (fun s => { s with stream := s.stream ++ [v] })
                c.subsByRequestID },
         [Event.valueDelivered rid])) := by
  constructor
  · intro hcap
    simp only [handleSubscriptionMessage, h1, h2, hdec, if_pos hcap]
    simp only [closeSubscription, hrid, h2, hsid]
  · intro hlt
    simp only [handleSubscriptionMessage, h1, h2, hdec,
      if_neg (by omega : ¬ sub.streamCap ≤ sub.stream.length), hrid]

/-- C2 witness: with stream capacity 2 and two pending values, a routed
notification tears the entry down with the capacity error; the entry
leaves both indices. -/
theorem c2_backpressure_teardown_witness :
    handleSubscriptionMessage sampleClient2 7 [] =
      ({ sampleClient2 with
          subsByRequestID := alistErase 1 sampleClient2.subsByRequestID,
          subsByWSSubID := alistErase 7 sampleClient2.subsByWSSubID },
       [Event.errDelivered 1
          ("reached channel max capacity " ++ toString sampleSubFull.stream.length)]) :=
  (c2_backpressure_teardown sampleClient2 7 1 sampleSubFull [] 7 rfl rfl rfl rfl
    rfl).1 (by decide)

/-- C6: the default transactionNotification sub-ID filter agrees with the
spec's reading — when the literal `"subscription":` occurs in bytes
`[60:128]` and a valid integer bounded by one of the delimiters space,
comma, bracket, brace follows it, that integer is returned; payloads
shorter than 128 bytes, payloads without the literal in that range, and
payloads where no delimiter or no valid integer follows all yield
not-found. -/
theorem c6_transaction_subid_matches_spec (b : Bytes) :
    (transactionSubID b =
      match specTransactionSubID b with
      | some n => (n, true)
      | none => (0, false)) ∧
    (b.length < 128 → transactionSubID b = (0, false)) ∧
    (cutAfter subscriptionKey ((b.take 128).drop 60) = none →
      transactionSubID b = (0, false)) := by
  refine ⟨?_, ?_, ?_⟩
  · by_cases hl : b.length < 128
    · simp [transactionSubID, specTransactionSubID, hl]
    · cases hcut : cutAfter subscriptionKey ((b.take 128).drop 60) with
      | none => simp [transactionSubID, specTransactionSubID, hl, hcut]
      | some rest =>
        cases hidx : indexAny delimBytes rest with
        | none =>
          have hany := (indexAny_eq_none_iff delimBytes rest).1 hidx
          simp [transactionSubID, specTransactionSubID, hl, hcut, hidx, hany]
        | some i =>
          obtain ⟨ht, ha⟩ := indexAny_take delimBytes rest i hidx
          simp only [transactionSubID, specTransactionSubID, hl, if_neg hl,
            hcut, hidx, ha, if_true, ht]
          cases parseUint64
              (trimSpace (rest.takeWhile fun c => decide (c ∉ delimBytes))) <;>
            simp
  · intro hl
    simp [transactionSubID, hl]
  · intro hcut
    by_cases hl : b.length < 128
    · simp [transactionSubID, hl]
    · simp [transactionSubID, hl, hcut]

set_option maxRecDepth 100000 in
/-- C6 witness: a 138-byte payload with `"subscription":42,` inside bytes
`[60:128]` parses to 42, and any payload shorter than 128 bytes is
not-found. -/
theorem c6_transaction_subid_matches_spec_witness :
    transactionSubID samplePayloadSub = (42, true) ∧
    transactionSubID [] = (0, false) :=
  ⟨by
    have h := (c6_transaction_subid_matches_spec samplePayloadSub).1
    rw [h]
    decide,
   (c6_transaction_subid_matches_spec []).2.1 (by decide)⟩

/-- C4: the default logsNotification discarder returns true exactly when
the delimiter-bounded, whitespace-trimmed token following `"err":` in
bytes `[192:256]` exists and is not the literal `null`; it returns false
for every payload shorter than 256 bytes and for every payload without
that literal in the range. -/
theorem c4_logs_discarder_matches_spec (b : Bytes) :
    (logsDiscard b = true ↔ ∃ v, specErrValue b = some v ∧ v ≠ nullBytes) ∧
    (b.length < 256 → logsDiscard b = false) ∧
    (cutAfter errKey ((b.take 256).drop 192) = none → logsDiscard b = false) := by
  refine ⟨?_, ?_, ?_⟩
  · by_cases hl : b.length < 256
    · simp [logsDiscard, specErrValue, hl]
    · cases hcut : cutAfter errKey ((b.take 256).drop 192) with
      | none => simp [logsDiscard, specErrValue, hl, hcut]
      | some rest =>
        cases hidx : indexAny delimBytes rest with
        | none =>
          have hany := (indexAny_eq_none_iff delimBytes rest).1 hidx
          simp [logsDiscard, specErrValue, hl, hcut, hidx, hany]
        | some i =>
          obtain ⟨ht, ha⟩ := indexAny_take delimBytes rest i hidx
          simp [logsDiscard, specErrValue, hl, hcut, hidx, ha, ht]
  · intro hl
    simp [logsDiscard, hl]
  · intro hcut
    by_cases hl : b.length < 256
    · simp [logsDiscard, hl]
    · simp [logsDiscard, hl, hcut]

set_option maxRecDepth 100000 in
/-- C4 witness: a payload with `"err":"oops",` inside bytes `[192:256]` is
dropped, and any payload shorter than 256 bytes is kept. -/
theorem c4_logs_discarder_matches_spec_witness :
    logsDiscard samplePayloadErr = true ∧ logsDiscard [] = false :=
  ⟨(c4_logs_discarder_matches_spec samplePayloadErr).1.2
      ⟨strBytes "\"oops\"", by decide, by decide⟩,
   (c4_logs_discarder_matches_spec []).2.1 (by decide)⟩

theorem tables3_closeSubscription {V : Type} (c : Client V) (rid : Nat)
    (e : String) :
    (closeSubscription c rid e).1.subIDRetrievals = c.subIDRetrievals ∧
    (closeSubscription c rid e).1.txDiscarders = c.txDiscarders ∧
    (closeSubscription c rid e).1.sigRetrievals = c.sigRetrievals := by
  unfold closeSubscription
  split <;> simp

theorem tables3_handleSubscriptionMessage {V : Type} (c : Client V)
    (subID : Nat) (msg : Bytes) :
    (handleSubscriptionMessage c subID msg).1.subIDRetrievals = c.subIDRetrievals ∧
    (handleSubscriptionMessage c subID msg).1.txDiscarders = c.txDiscarders ∧
    (handleSubscriptionMessage c subID msg).1.sigRetrievals = c.sigRetrievals := by
  unfold handleSubscriptionMessage
  repeat' split
  all_goals simp [tables3_closeSubscription]

theorem tables3_routeNotification {V : Type} (env : JsonEnv) (c : Client V)
    (m : String) (msg : Bytes) :
    (routeNotification env c m msg).1.subIDRetrievals = c.subIDRetrievals ∧
    (routeNotification env c m msg).1.txDiscarders = c.txDiscarders ∧
    (routeNotification env c m msg).1.sigRetrievals = c.sigRetrievals := by
  unfold routeNotification
  repeat' split
  all_goals simp [tables3_handleSubscriptionMessage]

theorem tables3_sigStep {V : Type} (env : JsonEnv) (c : Client V)
    (m : String) (msg : Bytes) :
    (sigStep env c m msg).1.subIDRetrievals = c.subIDRetrievals ∧
    (sigStep env c m msg).1.txDiscarders = c.txDiscarders ∧
    (sigStep env c m msg).1.sigRetrievals = c.sigRetrievals := by
  unfold sigStep
  repeat' split
  all_goals simp [tables3_routeNotification]

theorem tables3_afterAck {V : Type} (env : JsonEnv) (c : Client V)
    (msg : Bytes) :
    (afterAck env c msg).1.subIDRetrievals = c.subIDRetrievals ∧
    (afterAck env c msg).1.txDiscarders = c.txDiscarders ∧
    (afterAck env c msg).1.sigRetrievals = c.sigRetrievals := by
  unfold afterAck
  repeat' split
  all_goals simp [tables3_sigStep]

theorem tables3_handleNewSubscriptionMessage {V : Type} (c : Client V)
    (i r : Nat) :
    (handleNewSubscriptionMessage c i r).1.subIDRetrievals = c.subIDRetrievals ∧
    (handleNewSubscriptionMessage c i r).1.txDiscarders = c.txDiscarders ∧
    (handleNewSubscriptionMessage c i r).1.sigRetrievals = c.sigRetrievals := by
  unfold handleNewSubscriptionMessage
  split <;> simp

theorem tables3_handleMessage {V : Type} (env : JsonEnv) (c : Client V)
    (msg : Bytes) :
    (handleMessage env c msg).1.subIDRetrievals = c.subIDRetrievals ∧
    (handleMessage env c msg).1.txDiscarders = c.txDiscarders ∧
    (handleMessage env c msg).1.sigRetrievals = c.sigRetrievals := by
  unfold handleMessage
  split
  · simp [tables3_handleNewSubscriptionMessage]
  · simp [tables3_afterAck]

theorem tables3_runAll {V : Type} (env : JsonEnv) (ms : List Bytes) :
    ∀ c : Client V,
      (runAll env c ms).subIDRetrievals = c.subIDRetrievals ∧
      (runAll env c ms).txDiscarders = c.txDiscarders ∧
      (runAll env c ms).sigRetrievals = c.sigRetrievals := by
  induction ms with
  | nil => intro c; exact ⟨rfl, rfl, rfl⟩
  | cons m t ih =>
    intro c
    obtain ⟨a1, a2, a3⟩ := ih (handleMessage env c m).1
    obtain ⟨b1, b2, b3⟩ := tables3_handleMessage env c m
    exact ⟨a1.trans b1, a2.trans b2, a3.trans b3⟩

theorem cache_closeSubscription {V : Type} (c : Client V) (rid : Nat)
    (e : String) : (closeSubscription c rid e).1.sigCache = c.sigCache := by
  unfold closeSubscription
  split <;> rfl

theorem cache_handleSubscriptionMessage {V : Type} (c : Client V)
    (subID : Nat) (msg : Bytes) :
    (handleSubscriptionMessage c subID msg).1.sigCache = c.sigCache := by
  unfold handleSubscriptionMessage
  repeat' split
  all_goals simp [cache_closeSubscription]

theorem cache_routeNotification {V : Type} (env : JsonEnv) (c : Client V)
    (m : String) (msg : Bytes) :
    (routeNotification env c m msg).1.sigCache = c.sigCache := by
  unfold routeNotification
  repeat' split
  all_goals simp [cache_handleSubscriptionMessage]

theorem cache_handleNewSubscriptionMessage {V : Type} (c : Client V)
    (i r : Nat) :
    (handleNewSubscriptionMessage c i r).1.sigCache = c.sigCache := by
  unfold handleNewSubscriptionMessage
  split <;> rfl

theorem handleMessage_notack {V : Type} (env : JsonEnv) (c : Client V)
    (msg : Bytes)
    (h : msg.length < 128 → (env.parseAck msg).1 = 0 ∨ (env.parseAck msg).2 = 0) :
    handleMessage env c msg = afterAck env c msg := by
  unfold handleMessage
  rw [if_neg]
  rintro ⟨h1, h2, h3⟩
  rcases h h1 with h4 | h4
  · exact h2 h4
  · exact h3 h4

theorem afterAck_sigStep_eq {V : Type} (env : JsonEnv) (c : Client V)
    (msg : Bytes) (m : String) (f : Bytes → Sig)
    (hm : env.getMethod msg = some m)
    (hd : discards c.txDiscarders m msg = false)
    (hf : lookupA m c.sigRetrievals = some f) :
    afterAck env c msg =
      if env.cacheHas c.sigCache (f msg) then (c, [])
      else routeNotification env
        { c with sigCache := env.cacheSet c.sigCache (f msg) } m msg := by
  unfold afterAck sigStep
  simp only [hm, hd, hf, Bool.false_eq_true, if_false]

theorem cacheHas_persist_handleMessage {V : Type} (env : JsonEnv)
    (c : Client V) (msg : Bytes) (x : Sig)
    (hmono : ∀ s y, env.cacheHas s x = true → env.cacheHas (env.cacheSet s y) x = true)
    (hx : env.cacheHas c.sigCache x = true) :
    env.cacheHas (handleMessage env c msg).1.sigCache x = true := by
  unfold handleMessage
  split
  · rw [cache_handleNewSubscriptionMessage]
    exact hx
  · unfold afterAck
    split
    · exact hx
    · split
      · exact hx
      · unfold sigStep
        split
        · split
          · exact hx
          · rw [cache_routeNotification]
            exact hmono _ _ hx
        · rw [cache_routeNotification]
          exact hx

theorem cacheHas_persist_runAll {V : Type} (env : JsonEnv) (ms : List Bytes)
    (x : Sig)
    (hmono : ∀ s y, env.cacheHas s x = true → env.cacheHas (env.cacheSet s y) x = true) :
    ∀ c : Client V, env.cacheHas c.sigCache x = true →
      env.cacheHas (runAll env c ms).sigCache x = true := by
  induction ms with
  | nil => intro c hx; exact hx
  | cons m t ih =>
    intro c hx
    exact ih (handleMessage env c m).1
      (cacheHas_persist_handleMessage env c m x hmono hx)

/-- C5: when a signature retriever exists for the frame's method (and the
frame is neither an ack nor discarded), the dispatcher extracts the
signature before any sub-ID lookup: a cache hit drops the frame with no
state change and no delivery, a cache miss records the signature and
continues into routing; consequently, with a faithfully recording cache,
the second of two successive notifications bearing the same signature is
dropped with no delivery. -/
theorem c5_signature_dedup {V : Type} (env : JsonEnv) (c : Client V)
    (msg msg2 : Bytes) (m : String) (f : Bytes → Sig)
    (hack : msg.length < 128 → (env.parseAck msg).1 = 0 ∨ (env.parseAck msg).2 = 0)
    (hm : env.getMethod msg = some m)
    (hd : discards c.txDiscarders m msg = false)
    (hf : lookupA m c.sigRetrievals = some f)
    (hins : ∀ s x, env.cacheHas (env.cacheSet s x) x = true)
    (hmono : ∀ s x y, env.cacheHas s x = true →
      env.cacheHas (env.cacheSet s y) x = true)
    (hack2 : msg2.length < 128 →
      (env.parseAck msg2).1 = 0 ∨ (env.parseAck msg2).2 = 0)
    (hm2 : env.getMethod msg2 = some m)
    (hd2 : discards c.txDiscarders m msg2 = false)
    (hsame : f msg2 = f msg) :
    (env.cacheHas c.sigCache (f msg) = true → handleMessage env c msg = (c, [])) ∧
    (env.cacheHas c.sigCache (f msg) = false →
      handleMessage env c msg =
        routeNotification env
          { c with sigCache := env.cacheSet c.sigCache (f msg) } m msg) ∧
    handleMessage env (handleMessage env c msg).1 msg2 =
      ((handleMessage env c msg).1, []) := by
  have hA := handleMessage_notack env c msg hack
  have hB := afterAck_sigStep_eq env c msg m f hm hd hf
  refine ⟨?_, ?_, ?_⟩
  · intro h
    rw [hA, hB, if_pos h]
  · intro h
    rw [hA, hB, if_neg (by simp [h])]
  · have ht := tables3_handleMessage env c msg
    have hhas : env.cacheHas (handleMessage env c msg).1.sigCache (f msg2) = true := by
      rw [hsame]
      by_cases hcase : env.cacheHas c.sigCache (f msg) = true
      · have heq : handleMessage env c msg = (c, []) := by rw [hA, hB, if_pos hcase]
        rw [heq]
        exact hcase
      · have hfalse : env.cacheHas c.sigCache (f msg) = false := by
          revert hcase
          cases env.cacheHas c.sigCache (f msg) <;> simp
        have heq : handleMessage env c msg =
            routeNotification env
              { c with sigCache := env.cacheSet c.sigCache (f msg) } m msg := by
          rw [hA, hB, if_neg (by simp [hfalse])]
        rw [heq, cache_routeNotification]
        exact hins _ _
    have hd2b : discards (handleMessage env c msg).1.txDiscarders m msg2 = false := by
      rw [ht.2.1]
      exact hd2
    have hf2b : lookupA m (handleMessage env c msg).1.sigRetrievals = some f := by
      rw [ht.2.2]
      exact hf
    have hA2 := handleMessage_notack env (handleMessage env c msg).1 msg2 hack2
    have hB2 := afterAck_sigStep_eq env (handleMessage env c msg).1 msg2 m f hm2 hd2b hf2b
    rw [hA2, hB2, if_pos hhas]

/-- C5 witness: with the faithful list cache and a constant signature
retriever for logsNotification, the second of two identical notifications
is dropped: the state is unchanged and nothing is delivered. -/
theorem c5_signature_dedup_witness :
    handleMessage dedupEnv (handleMessage dedupEnv sigClient5 []).1 [] =
      ((handleMessage dedupEnv sigClient5 []).1, []) :=
  (c5_signature_dedup dedupEnv sigClient5 [] [] "logsNotification"
    constSigRetrieval (fun _ => Or.inl rfl) rfl rfl rfl
    (fun s x => by simp [dedupEnv, listCacheHas, listCacheSet])
    (fun s x y h => by
      simp [dedupEnv, listCacheHas, listCacheSet] at h ⊢
      exact Or.inr h)
    (fun _ => Or.inl rfl) rfl rfl rfl).2.2

/-- C9: the default signature retrievals return the all-zero signature
whenever extraction misses (payload too short, or the literal absent from
the scanned range), and a missed notification still participates in de-dup
with that zero signature: after the dispatcher handles it, the zero
signature is in the cache, and — with a faithfully recording cache — every
later notification of that method on which extraction also misses is
dropped with no delivery, whatever frames arrive in between. -/
theorem c9_missed_extraction_dedups_on_zero {V : Type} (env : JsonEnv)
    (c : Client V) (msg msg2 : Bytes) (ms : List Bytes) (m : String)
    (f f58 : Bytes → Sig)
    (hins : ∀ s x, env.cacheHas (env.cacheSet s x) x = true)
    (hmono : ∀ s x y, env.cacheHas s x = true →
      env.cacheHas (env.cacheSet s y) x = true)
    (hack : msg.length < 128 → (env.parseAck msg).1 = 0 ∨ (env.parseAck msg).2 = 0)
    (hm : env.getMethod msg = some m)
    (hd : discards c.txDiscarders m msg = false)
    (hf : lookupA m c.sigRetrievals = some f)
    (hmiss : f msg = zeroSig)
    (hack2 : msg2.length < 128 →
      (env.parseAck msg2).1 = 0 ∨ (env.parseAck msg2).2 = 0)
    (hm2 : env.getMethod msg2 = some m)
    (hd2 : discards c.txDiscarders m msg2 = false)
    (hmiss2 : f msg2 = zeroSig) :
    (∀ b : Bytes, b.length < 224 → logsSigRetrieval f58 b = zeroSig) ∧
    (∀ b : Bytes, cutAfter sigKey ((b.take 224).drop 96) = none →
      logsSigRetrieval f58 b = zeroSig) ∧
    (∀ b : Bytes, b.length < 128 → transactionSigRetrieval f58 b = zeroSig) ∧
    (∀ b : Bytes, cutAfter sigKey (b.drop (b.length - 128)) = none →
      transactionSigRetrieval f58 b = zeroSig) ∧
    env.cacheHas (handleMessage env c msg).1.sigCache zeroSig = true ∧
    handleMessage env (runAll env (handleMessage env c msg).1 ms) msg2 =
      (runAll env (handleMessage env c msg).1 ms, []) := by
  have hA := handleMessage_notack env c msg hack
  have hB := afterAck_sigStep_eq env c msg m f hm hd hf
  have hmem : env.cacheHas (handleMessage env c msg).1.sigCache zeroSig = true := by
    by_cases hcase : env.cacheHas c.sigCache (f msg) = true
    · have heq : handleMessage env c msg = (c, []) := by rw [hA, hB, if_pos hcase]
      rw [heq]
      rw [hmiss] at hcase
      exact hcase
    · have hfalse : env.cacheHas c.sigCache (f msg) = false := by
        revert hcase
        cases env.cacheHas c.sigCache (f msg) <;> simp
      have heq : handleMessage env c msg =
          routeNotification env
            { c with sigCache := env.cacheSet c.sigCache (f msg) } m msg := by
        rw [hA, hB, if_neg (by simp [hfalse])]
      rw [heq, cache_routeNotification]
      rw [hmiss]
      exact hins _ _
  refine ⟨?_, ?_, ?_, ?_, hmem, ?_⟩
  · intro b hb
    simp [logsSigRetrieval, hb]
  · intro b hcut
    by_cases hb : b.length < 224
    · simp [logsSigRetrieval, hb]
    · simp [logsSigRetrieval, hb, hcut]
  · intro b hb
    simp [transactionSigRetrieval, hb]
  · intro b hcut
    by_cases hb : b.length < 128
    · simp [transactionSigRetrieval, hb]
    · simp [transactionSigRetrieval, hb, hcut]
  · have ht1 := tables3_handleMessage env c msg
    have ht2 := tables3_runAll env ms (handleMessage env c msg).1
    have hmem2 : env.cacheHas
        (runAll env (handleMessage env c msg).1 ms).sigCache zeroSig = true :=
      cacheHas_persist_runAll env ms zeroSig
        (fun s y h => hmono s zeroSig y h) _ hmem
    have hd2b : discards
        (runAll env (handleMessage env c msg).1 ms).txDiscarders m msg2 = false := by
      rw [ht2.2.1, ht1.2.1]
      exact hd2
    have hf2b : lookupA m
        (runAll env (handleMessage env c msg).1 ms).sigRetrievals = some f := by
      rw [ht2.2.2, ht1.2.2]
      exact hf
    have hA2 := handleMessage_notack env
      (runAll env (handleMessage env c msg).1 ms) msg2 hack2
    have hB2 := afterAck_sigStep_eq env
      (runAll env (handleMessage env c msg).1 ms) msg2 m f hm2 hd2b hf2b
    rw [hA2, hB2, if_pos (by rw [hmiss2]; exact hmem2)]

/-- C9 witness: with the default retrievals installed and the faithful
list cache, an empty logsNotification payload (extraction misses) primes
the cache with the zero signature, and a later empty payload — after an
intervening frame — is dropped with no delivery. -/
theorem c9_missed_extraction_dedups_on_zero_witness :
    dedupEnv.cacheHas (handleMessage dedupEnv sigClient9 []).1.sigCache zeroSig =
      true ∧
    handleMessage dedupEnv (runAll dedupEnv (handleMessage dedupEnv sigClient9 []).1
        [[]]) [] =
      (runAll dedupEnv (handleMessage dedupEnv sigClient9 []).1 [[]], []) :=
  ⟨(c9_missed_extraction_dedups_on_zero dedupEnv sigClient9 [] [] [[]]
      "logsNotification" (logsSigRetrieval (fun _ => zeroSig)) (fun _ => zeroSig)
      (fun s x => by simp [dedupEnv, listCacheHas, listCacheSet])
      (fun s x y h => by
        simp [dedupEnv, listCacheHas, listCacheSet] at h ⊢
        exact Or.inr h)
      (fun _ => Or.inl rfl) rfl rfl rfl rfl
      (fun _ => Or.inl rfl) rfl rfl rfl).2.2.2.2.1,
   (c9_missed_extraction_dedups_on_zero dedupEnv sigClient9 [] [] [[]]
      "logsNotification" (logsSigRetrieval (fun _ => zeroSig)) (fun _ => zeroSig)
      (fun s x => by simp [dedupEnv, listCacheHas, listCacheSet])
      (fun s x y h => by
        simp [dedupEnv, listCacheHas, listCacheSet] at h ⊢
        exact Or.inr h)
      (fun _ => Or.inl rfl) rfl rfl rfl rfl
      (fun _ => Or.inl rfl) rfl rfl rfl).2.2.2.2.2⟩
